import Mathlib

/-
Verification of the weekly_news pipeline (src/main.py): a LinkAce bookmark
fetch, an LLM digest pass with optional human-feedback revision, and a Hugo
content-file write.  The Python code is shallowly embedded: stateless
functions become Lean functions, remote calls are parameterized by their
outcome, Python exceptions become `Except PyError`, and CPython's
`datetime` machinery (fromisoformat / strftime / aware-datetime
comparison) is modelled explicitly on microsecond counts.
-/

namespace WeeklyNews

/-! ## Calendar arithmetic (model of CPython `datetime` date handling) -/

/-- Days since 1970-01-01 of the civil date y-m-d (proleptic Gregorian). -/
def daysFromCivil (y : Int) (m d : Nat) : Int :=
  let y' := y - (if m ≤ 2 then 1 else 0)
  let era := Int.ediv y' 400
  let yoe := y' - era * 400
  let mp : Int := if 2 < m then (m : Int) - 3 else (m : Int) + 9
  let doy := Int.ediv (153 * mp + 2) 5 + (d : Int) - 1
  let doe := yoe * 365 + Int.ediv yoe 4 - Int.ediv yoe 100 + doy
  era * 146097 + doe - 719468

/-- Inverse of `daysFromCivil`: the civil date (year, month, day) of a
day count since 1970-01-01. -/
def civilFromDays (z0 : Int) : Int × Nat × Nat :=
  let z := z0 + 719468
  let era := Int.ediv z 146097
  let doe := z - era * 146097
  let yoe := Int.ediv (doe - Int.ediv doe 1460 + Int.ediv doe 36524 - Int.ediv doe 146096) 365
  let y := yoe + era * 400
  let doy := doe - (365 * yoe + Int.ediv yoe 4 - Int.ediv yoe 100)
  let mp := Int.ediv (5 * doy + 2) 153
  let d := doy - Int.ediv (153 * mp + 2) 5 + 1
  let m := if mp < 10 then mp + 3 else mp - 9
  (y + (if m ≤ 2 then 1 else 0), m.toNat, d.toNat)

/-- Gregorian leap-year test. -/
def isLeapYear (y : Int) : Bool :=
  Int.emod y 4 = 0 && (Int.emod y 100 ≠ 0 || Int.emod y 400 = 0)

/-- Number of days in month `m` of year `y`. -/
def daysInMonth (y : Int) (m : Nat) : Nat :=
  if m = 2 then (if isLeapYear y then 29 else 28)
  else if m = 4 ∨ m = 6 ∨ m = 9 ∨ m = 11 then 30
  else 31

/-- Model of a CPython `datetime.datetime` value: `wall` is the naive
wall-clock reading in microseconds since 1970-01-01T00:00:00 (of the
clock itself, ignoring any timezone), and `tz` is the `utcoffset` of the
attached `tzinfo` in seconds (`none` = naive datetime). -/
structure PyDatetime where
  wall : Int
  tz : Option Int
deriving DecidableEq

/-- The UTC instant (in microseconds since the epoch) an aware datetime
denotes: wall-clock reading minus the written offset.  CPython compares
aware datetimes by exactly this quantity. -/
def PyDatetime.instant (d : PyDatetime) : Int :=
  d.wall - (d.tz.getD 0) * 1000000

/-! ## Model of `datetime.fromisoformat` -/

/-- Numeric value of a decimal digit character, `none` otherwise. -/
def digitVal (c : Char) : Option Nat :=
  if c.isDigit then some (c.toNat - 48) else none

/-- Read exactly two decimal digits. -/
def read2 : List Char → Option (Nat × List Char)
  | a :: b :: rest =>
    match digitVal a, digitVal b with
    | some x, some y => some (x * 10 + y, rest)
    | _, _ => none
  | _ => none

/-- Read exactly four decimal digits. -/
def read4 : List Char → Option (Nat × List Char)
  | a :: b :: c :: d :: rest =>
    match digitVal a, digitVal b, digitVal c, digitVal d with
    | some w, some x, some y, some z => some (((w * 10 + x) * 10 + y) * 10 + z, rest)
    | _, _, _, _ => none
  | _ => none

/-- Parse a trailing UTC-offset suffix `±HH:MM` (empty input = no
offset, i.e. a naive result).  CPython also accepts seconds in the
offset; the source service never emits them so they are not modelled.
Returns the offset in seconds. -/
def parseOffset : List Char → Option (Option Int)
  | [] => some none
  | c :: rest =>
    if c = '+' ∨ c = '-' then
      match read2 rest with
      | none => none
      | some (oh, rest1) =>
        match rest1 with
        | ':' :: rest2 =>
          match read2 rest2 with
          | none => none
          | some (om, rest3) =>
            if rest3 = [] ∧ oh < 24 ∧ om < 60 then
              some (some ((if c = '-' then -1 else 1) * ((oh : Int) * 3600 + om * 60)))
            else none
        | _ => none
    else none

/-- Parse the time-of-day part `HH[:MM[:SS[.f{1..6}]]]` followed by an
optional offset; returns (microseconds within the day, offset). -/
def parseTime (cs : List Char) : Option (Int × Option Int) :=
  match read2 cs with
  | none => none
  | some (h, cs1) =>
    if 24 ≤ h then none else
    match cs1 with
    | ':' :: cs2 =>
      match read2 cs2 with
      | none => none
      | some (mi, cs3) =>
        if 60 ≤ mi then none else
        match cs3 with
        | ':' :: cs4 =>
          match read2 cs4 with
          | none => none
          | some (s, cs5) =>
            if 60 ≤ s then none else
            match cs5 with
            | '.' :: cs6 =>
              let digs := cs6.takeWhile Char.isDigit
              let rest := cs6.drop digs.length
              if digs.length = 0 ∨ 6 < digs.length then none
              else
                let micro : Nat := (digs.foldl (fun a c => a * 10 + (c.toNat - 48)) 0) * 10 ^ (6 - digs.length)
                match parseOffset rest with
                | none => none
                | some tz => some ((((h * 60 + mi) * 60 + s : Int)) * 1000000 + (micro : Int), tz)
            | _ =>
              match parseOffset cs5 with
              | none => none
              | some tz => some ((((h * 60 + mi) * 60 + s) * 1000000 : Int), tz)
        | _ =>
          match parseOffset cs3 with
          | none => none
          | some tz => some ((((h * 60 + mi) * 60) * 1000000 : Int), tz)
    | _ =>
      match parseOffset cs1 with
      | none => none
      | some tz => some (((h * 3600) * 1000000 : Int), tz)

/-- Model of `datetime.fromisoformat`: accepts
`YYYY-MM-DD[{T, }HH[:MM[:SS[.f{1..6}]]][±HH:MM]]`, validating all
fields; `none` models the `ValueError` CPython raises on anything
else. -/
def fromisoformat (str : String) : Option PyDatetime :=
  match read4 str.data with
  | none => none
  | some (y, cs1) =>
    match cs1 with
    | '-' :: cs2 =>
      match read2 cs2 with
      | none => none
      | some (m, cs3) =>
        match cs3 with
        | '-' :: cs4 =>
          match read2 cs4 with
          | none => none
          | some (d, cs5) =>
            if m < 1 ∨ 12 < m ∨ d < 1 ∨ daysInMonth y m < d then none
            else
              let base := daysFromCivil y m d * 86400000000
              match cs5 with
              | [] => some ⟨base, none⟩
              | sep :: rest =>
                if sep = 'T' ∨ sep = ' ' then
                  match parseTime rest with
                  | none => none
                  | some (tod, tz) => some ⟨base + tod, tz⟩
                else none
        | _ => none
    | _ => none

/-- Python `str.replace('Z', '+00:00')`: the pattern is a single
character, so plain character-wise substitution is exact. -/
def replaceZchars : List Char → List Char
  | [] => []
  | c :: cs =>
    if c = 'Z' then '+' :: '0' :: '0' :: ':' :: '0' :: '0' :: replaceZchars cs
    else c :: replaceZchars cs

/-- `s.replace('Z', '+00:00')` on strings. -/
def replaceZ (s : String) : String := ⟨replaceZchars s.data⟩

/-- Python's `str.strip()` whitespace set (ASCII part; the service
strings involved contain no exotic Unicode spaces). -/
def isPySpace (c : Char) : Bool :=
  c = ' ' || c = '\t' || c = '\n' || c = '\r' || c = '\x0b' || c = '\x0c'

/-- Model of Python `str.strip()`. -/
def pyStrip (s : String) : String :=
  ⟨((s.data.dropWhile isPySpace).reverse.dropWhile isPySpace).reverse⟩

/-! ## Model of the `strftime` fragments the program uses -/

/-- English month name, as `%B` renders it. -/
def monthName : Nat → String
  | 1 => "January" | 2 => "February" | 3 => "March" | 4 => "April"
  | 5 => "May" | 6 => "June" | 7 => "July" | 8 => "August"
  | 9 => "September" | 10 => "October" | 11 => "November" | 12 => "December"
  | _ => ""

/-- Two-digit zero-padded rendering. -/
def pad2 (n : Nat) : String :=
  if n < 10 then "0" ++ toString n else toString n

/-- Four-digit zero-padded rendering (years 0–9999). -/
def pad4 (y : Int) : String :=
  let n := y.toNat
  if n < 10 then "000" ++ toString n
  else if n < 100 then "00" ++ toString n
  else if n < 1000 then "0" ++ toString n
  else toString n

/-- Date components (year, month, day) of a datetime's wall clock. -/
def PyDatetime.dateParts (dt : PyDatetime) : Int × Nat × Nat :=
  civilFromDays (Int.ediv (Int.ediv dt.wall 1000000) 86400)

/-- Time-of-day components (hour, minute, second) of the wall clock. -/
def PyDatetime.timeParts (dt : PyDatetime) : Nat × Nat × Nat :=
  let sod := (Int.emod (Int.ediv dt.wall 1000000) 86400).toNat
  (sod / 3600, sod / 60 % 60, sod % 60)

/-- `%z`: empty for a naive datetime, otherwise `±HHMM` (the offsets in
play are whole minutes, so the seconds extension never appears). -/
def strftimePercentZ : Option Int → String
  | none => ""
  | some off =>
    let a := if off < 0 then (-off).toNat else off.toNat
    (if off < 0 then "-" else "+") ++ pad2 (a / 3600) ++ pad2 (a / 60 % 60)

/-- `%Y-%m-%d`. -/
def strftimeYmd (dt : PyDatetime) : String :=
  let (y, m, d) := dt.dateParts
  pad4 y ++ "-" ++ pad2 m ++ "-" ++ pad2 d

/-- `%H:%M:%S`. -/
def strftimeHMS (dt : PyDatetime) : String :=
  let (h, mi, s) := dt.timeParts
  pad2 h ++ ":" ++ pad2 mi ++ ":" ++ pad2 s

/-- `%Y-%m-%dT%H:%M:%S%z` — the front-matter `date:` format. -/
def strftimeIsoZ (dt : PyDatetime) : String :=
  strftimeYmd dt ++ "T" ++ strftimeHMS dt ++ strftimePercentZ dt.tz

/-- `%B %d, %Y` — the generated title's date format. -/
def strftimeBdY (dt : PyDatetime) : String :=
  let (y, m, d) := dt.dateParts
  monthName m ++ " " ++ pad2 d ++ ", " ++ pad4 y

/-! ## JSON values and Python exceptions -/

/-- A decoded JSON value (the service payloads in play carry only
integral numbers, so numbers are modelled as `Int`). -/
inductive Json where
  | null
  | bool (b : Bool)
  | num (n : Int)
  | str (s : String)
  | arr (elems : List Json)
  | obj (fields : List (String × Json))

/-- The Python exception classes the program can raise or catch.
`requestError` stands for `requests.RequestException` and its
subclasses (connection errors, `Timeout`, `HTTPError` from
`raise_for_status`, and `JSONDecodeError`, which subclasses it). -/
inductive PyError where
  | requestError (msg : String)
  | keyError (key : String)
  | valueError (msg : String)
  | typeError (msg : String)
  | attributeError (msg : String)
deriving DecidableEq

/-- `d[k]` on a decoded JSON object: `KeyError` when absent. -/
def dictIndex (fields : List (String × Json)) (k : String) : Except PyError Json :=
  match fields.lookup k with
  | some v => .ok v
  | none => .error (.keyError k)

/-- `d.get(k, default)` on a decoded JSON object. -/
def dictGet (fields : List (String × Json)) (k : String) (dflt : Json) : Json :=
  (fields.lookup k).getD dflt

/-! ## BookmarkSource: `LinkAceClient.get_weekly_links` -/

/-- The `Link` dataclass.  Field values come straight from the decoded
JSON (CPython does not enforce the annotated types), except
`created_at`, which the code has already required to be a string in
order to parse it. -/
structure Link where
  id : Json
  url : Json
  title : Json
  description : Json
  created_at : String
  tags : List Json

/-- Outcome of the one `requests.get` call `get_weekly_links` makes
(the request itself — URL, bearer header, `per_page=100`,
`order_by=created_at desc` — only determines this outcome).  `body` is
`none` when the 2xx body is not valid JSON (`response.json()` then
raises `JSONDecodeError`, a `RequestException` subclass). -/
inductive HttpResult where
  | networkError
  | response (status : Nat) (body : Option Json)

/-- Line 66 of src/main.py:
`datetime.fromisoformat(s.replace('Z', '+00:00')).replace(tzinfo=timezone.utc)` —
note the second `replace` keeps the wall-clock fields and overwrites
whatever offset was parsed with UTC. -/
def parseCreatedAt (s : String) : Option PyDatetime :=
  (fromisoformat (replaceZ s)).map (fun d => { d with tz := some 0 })

/-- The UTC instant a record's `created_at` string denotes when its
written offset is honoured (what an ISO-8601 reader means by the
timestamp).  Stated for comparison with `parseCreatedAt`, which
discards the offset. -/
def denotedInstant (s : String) : Option Int :=
  (fromisoformat (replaceZ s)).map PyDatetime.instant

/-- `[tag['name'] for tag in link_data.get('tags', [])]`: each element
must be a dict with a `name` key; anything else raises. -/
def extractTags : List Json → Except PyError (List Json)
  | [] => .ok []
  | Json.obj fields :: rest =>
    match dictIndex fields "name" with
    | .error e => .error e
    | .ok name =>
      match extractTags rest with
      | .error e => .error e
      | .ok names => .ok (name :: names)
  | _ :: _ => .error (.typeError "tag subscript on non-dict")

/-- Construction of one `Link` from a record that passed the window
filter: the tag comprehension runs first, then the `Link(...)` keyword
arguments are evaluated in order (`id`, `url`, `title`, `description`,
`created_at`, `tags`). -/
def extractLink (fields : List (String × Json)) (s : String) : Except PyError Link :=
  match (match dictGet fields "tags" (Json.arr []) with
         | Json.arr ts => extractTags ts
         | _ => .error (.typeError "iteration over non-list tags")) with
  | .error e => .error e
  | .ok tags =>
    match dictIndex fields "id" with
    | .error e => .error e
    | .ok idv =>
      match dictIndex fields "url" with
      | .error e => .error e
      | .ok urlv =>
        match dictIndex fields "title" with
        | .error e => .error e
        | .ok titlev =>
          .ok { id := idv, url := urlv, title := titlev,
                description := dictGet fields "description" (Json.str ""),
                created_at := s, tags := tags }

/-- The `for link_data in data.get('data', [])` loop body: parse the
record's `created_at`, keep the record when `created_at >= one_week_ago`
(aware-datetime comparison of instants).  Non-dict records, missing
keys and unparsable timestamps raise — those exceptions are not
`RequestException`s, so `get_weekly_links` does not catch them. -/
def processLinkData (one_week_ago : Int) : List Json → Except PyError (List Link)
  | [] => .ok []
  | j :: rest =>
    match j with
    | Json.obj fields =>
      match dictIndex fields "created_at" with
      | .error e => .error e
      | .ok v =>
        match v with
        | Json.str s =>
          match parseCreatedAt s with
          | none => .error (.valueError "Invalid isoformat string")
          | some d =>
            if one_week_ago ≤ d.instant then
              match extractLink fields s with
              | .error e => .error e
              | .ok link =>
                match processLinkData one_week_ago rest with
                | .error e => .error e
                | .ok links => .ok (link :: links)
            else processLinkData one_week_ago rest
        | _ => .error (.attributeError "replace on non-str created_at")
    | _ => .error (.typeError "subscript on non-dict link record")

/-- Embedding of `LinkAceClient.get_weekly_links` (src/main.py 47–85).
`now_utc` is `datetime.now(timezone.utc)` in microseconds since the
epoch; `one_week_ago = now_utc - timedelta(days=7)`.  The
`try/except requests.RequestException` turns network errors, non-2xx
statuses (`raise_for_status`) and invalid-JSON bodies into `.ok []`;
errors raised while walking a well-formed JSON body propagate.
A non-dict top-level document makes `data.get` raise; a non-list
`data` value makes the loop raise (CPython would iterate a string or
dict and then fail on the element subscript — uniformly modelled as an
immediate `TypeError`, which no claim distinguishes). -/
def get_weekly_links (now_utc : Int) (resp : HttpResult) : Except PyError (List Link) :=
  let one_week_ago := now_utc - 7 * 86400000000
  match resp with
  | .networkError => .ok []
  | .response status body =>
    if 400 ≤ status then .ok []
    else
      match body with
      | none => .ok []
      | some j =>
        match j with
        | Json.obj fields =>
          match dictGet fields "data" (Json.arr []) with
          | Json.arr ds => processLinkData one_week_ago ds
          | _ => .error (.typeError "iteration over non-list data")
        | _ => .error (.attributeError "get on non-dict response body")

/-! ## CompletionClient: `OpenRouterClient.call_llm` -/

/-- Outcome of the one `requests.post(..., timeout=30)` call inside
`call_llm` (the payload — model, the two chat messages wrapping the
caller's prompt, `max_tokens=2048`, `top_p=0.95`, the given temperature
— only determines this outcome).  `body = none` models a 2xx body that
is not valid JSON. -/
inductive LlmHttpResult where
  | timeout
  | networkError
  | response (status : Nat) (body : Option Json)

/-- The `try:` block of `call_llm` (src/main.py 115–134): everything up
to `return content`, with each `raise` surfaced as an `Except.error`.
Shapes on which CPython's `'choices' not in result` / subscripting
would raise `TypeError` are modelled as an immediate `typeError` (every
such error lands in a handler that returns `""`, so no claim
distinguishes them). -/
def call_llm_try (r : LlmHttpResult) : Except PyError String :=
  match r with
  | .timeout => .error (.requestError "timeout")
  | .networkError => .error (.requestError "connection error")
  | .response status body =>
    if 400 ≤ status then .error (.requestError "raise_for_status")
    else
      match body with
      | none => .error (.requestError "JSONDecodeError")
      | some result =>
        match result with
        | Json.obj fields =>
          match fields.lookup "choices" with
          | none => .error (.valueError "Empty choices in API response")
          | some (Json.arr []) => .error (.valueError "Empty choices in API response")
          | some (Json.arr (c0 :: _)) =>
            match c0 with
            | Json.obj cf =>
              match cf.lookup "message" with
              | none => .error (.keyError "message")
              | some (Json.obj mf) =>
                match mf.lookup "content" with
                | none => .error (.keyError "content")
                | some (Json.str content) =>
                  if pyStrip content = "" then .error (.valueError "Empty content in LLM response")
                  else .ok content
                | some _ => .error (.attributeError "strip on non-str content")
              | some _ => .error (.typeError "subscript on non-dict message")
            | _ => .error (.typeError "subscript on non-dict choice")
          | some _ => .error (.typeError "len of non-list choices")
        | _ => .error (.attributeError "membership test on non-dict result")

/-- Embedding of `OpenRouterClient.call_llm` (src/main.py 99–154): the
`except` ladder (`RequestException`, `KeyError`, `ValueError`, and a
final bare `Exception`) catches every error the body can raise, logs
it, and returns `""`.  `prompt` and `temperature` shape only the
request, never the error handling. -/
def call_llm (prompt : String) (temperature : ℚ) (r : LlmHttpResult) : String :=
  match call_llm_try r with
  | .ok content => content
  | .error _ => ""

/-! ## DigestComposer: `ContentProcessor` -/

/-- One recorded completion call: the prompt sent and the temperature
used.  Components are instrumented to return the list of calls they
perform, so "performs N remote calls" is a provable statement. -/
structure LlmCall where
  prompt : String
  temperature : ℚ

/-- The behaviour of the completion service for a given prompt and
temperature (abstracting over `call_llm`'s result, which may be `""`
on any failure). -/
abbrev Oracle := String → ℚ → String

/-- Collect the string elements of a list, raising `TypeError` on the
first non-string (how `str.join` consumes its argument). -/
def strElems : List Json → Except PyError (List String)
  | [] => .ok []
  | Json.str s :: rest =>
    match strElems rest with
    | .error e => .error e
    | .ok ss => .ok (s :: ss)
  | _ :: _ => .error (.typeError "sequence item: expected str instance")

/-- `', '.join(xs)`: every element must be a `str`, else `TypeError`. -/
def pyJoinComma (elems : List Json) : Except PyError String :=
  match strElems elems with
  | .error e => .error e
  | .ok ss => .ok (String.intercalate ", " ss)

/-- Python `str()` of a decoded JSON value, for the scalar shapes that
occur in prompt interpolation (f-strings call `str` on the value;
containers would render via `repr`, which no claim exercises — they
get a fixed marker here). -/
def pyStr : Json → String
  | .null => "None"
  | .bool true => "True"
  | .bool false => "False"
  | .num n => toString n
  | .str s => s
  | .arr _ => "[…]"
  | .obj _ => "\x7b…\x7d"

/-- The per-link block of `links_text` in `structure_links`. -/
def link_block (l : Link) : Except PyError String :=
  match pyJoinComma l.tags with
  | .error e => .error e
  | .ok tagsStr =>
    .ok ("**" ++ pyStr l.title ++ "**\n" ++
         "URL: " ++ pyStr l.url ++ "\n" ++
         "Description: " ++ pyStr l.description ++ "\n" ++
         "Tags: " ++ tagsStr ++ "\n" ++
         "Date: " ++ l.created_at ++ "\n---\n")

/-- The blocks of all links, in order. -/
def linkBlocks : List Link → Except PyError (List String)
  | [] => .ok []
  | l :: rest =>
    match link_block l with
    | .error e => .error e
    | .ok b =>
      match linkBlocks rest with
      | .error e => .error e
      | .ok bs => .ok (b :: bs)

/-- `links_text = "\n".join([...])`. -/
def links_text (links : List Link) : Except PyError String :=
  match linkBlocks links with
  | .error e => .error e
  | .ok bs => .ok (String.intercalate "\n" bs)

/-- Literal prefix of the synthesis prompt, up to `{len(links)}`. -/
def structurePromptPre : String :=
  "\n        Create a well-structured weekly digest from these "

/-- Literal middle of the synthesis prompt, between `{len(links)}` and
`{links_text}`. -/
def structurePromptMid : String :=
  " links I've saved this week.\n\n        LINKS DATA:\n        "

/-- Literal tail of the synthesis prompt, after `{links_text}`. -/
def structurePromptPost : String :=
  "\n\n        REQUIREMENTS:\n        1. Restructure the links as a easy to read list\n        2. write a general 300 words description of the week activity\n        3. Provide brief, insightful summaries inside the general description\n        4. each link must come from from LINKS_DATA\n        5. Use proper markdown formatting with headers, lists, and emphasis\n        6. Make it SEO-friendly with good structure\n        7. Keep tone professional but engaging, you have 20+ years experience of url link curation\n        8. Suggest relevant tags for the post\n        9. DO NOT create links not available in LINKS_DATA\n\n        FORMAT:\n        - Use bullet points or numbered lists for links\n        - Footer includes following links:\n          - shared.girard-davila.net linkace instance with stored links\n          - github.com/alx/weekly_news github repository of the code used to generate this newsletter\n\n        Make this content publication-ready for a technical blog.\n        "

/-- The synthesis prompt of `structure_links` (the f-string at
src/main.py 177–201), which interpolates `len(links)` and
`links_text`. -/
def structure_prompt (links : List Link) : Except PyError String :=
  match links_text links with
  | .error e => .error e
  | .ok lt =>
    .ok (structurePromptPre ++ toString links.length ++ structurePromptMid ++ lt ++ structurePromptPost)

/-- Embedding of `ContentProcessor.structure_links` (src/main.py
163–203): build the prompt, make exactly one completion call at
temperature 0.7, and return its output unmodified.  The only way to
return without calling is an exception while building `links_text`
(a non-string tag value). -/
def structure_links (o : Oracle) (links : List Link) : Except PyError (String × List LlmCall) :=
  match structure_prompt links with
  | .error e => .error e
  | .ok prompt => .ok (o prompt 0.7, [⟨prompt, 0.7⟩])

/-- Embedding of `ContentProcessor.get_editor_feedback` (src/main.py
205–216): strip the input line; an empty (falsy) result becomes the
approval sentinel. -/
def get_editor_feedback (inputLine : String) : String :=
  let feedback := pyStrip inputLine
  if feedback ≠ "" then feedback else "Content approved as-is"

/-- The revision prompt of `polish_content` (the f-string at
src/main.py 223–240), interpolating the content and the feedback. -/
def polish_prompt (content feedback : String) : String :=
  "\n        Original content:\n        " ++ content ++
  "\n\n        Editor feedback:\n        " ++ feedback ++
  "\n\n        Please revise the content based on the editor's feedback while maintaining:\n        - Proper markdown formatting\n        - SEO-friendly structure  \n        - Engaging tone\n        - Technical accuracy\n        - 20+ years of link curation experience\n        - Best source of insightful links in multiple social circles\n        - People look for value, give them best value\n\n        Return the polished version.\n        "

/-- Embedding of `ContentProcessor.polish_content` (src/main.py
218–242): the approval sentinel short-circuits to the unchanged
content with no completion call; anything else makes exactly one call
at temperature 0.5 and returns its (possibly empty) output. -/
def polish_content (o : Oracle) (content feedback : String) : String × List LlmCall :=
  if feedback = "Content approved as-is" then (content, [])
  else
    let p := polish_prompt content feedback
    (o p 0.5, [⟨p, 0.5⟩])

/-! ## SiteWriter: `HugoContentGenerator` -/

/-- The environment variables `HugoContentGenerator` and `main` read
(field names are the variable names; `none` = unset, so the coded
default applies). -/
structure Env where
  HUGO_CONTENT_PATH : Option String := none
  OUTPUT_FILENAME_PREFIX : Option String := none
  EDITOR_NAME : Option String := none
  TARGET_LIST_ID : Option String := none

/-- `json.dumps` of a list of strings (default separators). -/
def jsonDumpsStrList (tags : List String) : String :=
  "[" ++ String.intercalate ", " (tags.map (fun t => "\"" ++ t ++ "\"")) ++ "]"

/-- Embedding of `HugoContentGenerator.generate_frontmatter`
(src/main.py 251–266).  `now` is the `datetime.now()` taken inside the
function — a *naive* local datetime, so the `%z` of its `strftime`
renders as the empty string. -/
def generate_frontmatter (env : Env) (now : PyDatetime) (title : String) (tags : List String) : String :=
  "---\ntitle: \"" ++ title ++ "\"\ndate: " ++ strftimeIsoZ now ++
  "\ndraft: false\ndescription: \"Weekly curated links and insights from my reading list\"\ncategories: [\"Weekly Digest\", \"Curated Links\"]\ntags: " ++
  jsonDumpsStrList tags ++ "\nauthor: \"" ++ env.EDITOR_NAME.getD "Editor" ++ "\"\n---\n\n"

/-- The file system as written files: newest write first, so lookup
finds the latest content at a path (silent overwrite). -/
abbrev FileSys := List (String × String)

/-- The body block `save_content` wraps around the digest text. -/
def meta_content (content : String) (links_count : Nat) : String :=
  "\n*This week I discovered " ++ toString links_count ++
  " interesting links. Here's what caught my attention:*\n\n" ++ content ++
  "\n\n---\n*This digest was automatically generated from my [LinkAce](https://linkace.org) bookmark collection and curated with AI assistance.*\n"

/-- The title `save_content` generates from the current date. -/
def weeklyTitle (now : PyDatetime) : String :=
  "Weekly Links Digest - Week of " ++ strftimeBdY now

/-- The output path `save_content` derives: directory, dash-joined
date and configured stem, `.md`.  (CPython's `Path` would normalize a
leading `./`; only the joined string matters to any claim.) -/
def save_path (env : Env) (now : PyDatetime) : String :=
  env.HUGO_CONTENT_PATH.getD "./content/posts" ++ "/" ++
    strftimeYmd now ++ "-" ++ env.OUTPUT_FILENAME_PREFIX.getD "weekly-links" ++ ".md"

/-- Embedding of `HugoContentGenerator.save_content` (src/main.py
268–303): fixed title, fixed three-tag list, date-derived filename,
front matter plus body written (overwriting) to the derived path;
returns the path.  (`mkdir(parents=True, exist_ok=True)` happens at
construction and has no observable effect here.) -/
def save_content (env : Env) (now : PyDatetime) (fs : FileSys) (content : String) (links_count : Nat) : String × FileSys :=
  let title := weeklyTitle now
  let tags := ["weekly-digest", "curated-links", "reading-list"]
  let filepath := save_path env now
  let frontmatter := generate_frontmatter env now title tags
  let full_content := frontmatter ++ meta_content content links_count
  (filepath, (filepath, full_content) :: fs)

/-! ## The top-level workflow: `main` -/

/-- How a run of `main` ends.  `errored` is an exception logged and
re-raised by the outer `try/except`; `saved` carries the path, the
file system after the write, the digest text passed to `save_content`,
and the link count. -/
inductive MainOutcome where
  | errored (e : PyError)
  | noLinks
  | noContent
  | saved (path : String) (fs : FileSys) (finalContent : String) (linksCount : Nat)

/-- Everything observable about a run of `main`: the `print`ed
progress lines, the completion calls performed, and the outcome. -/
structure MainRun where
  printed : List String
  llmCalls : List LlmCall
  outcome : MainOutcome

/-- The first progress line of `main`. -/
def fetchNotice (env : Env) : String :=
  "🔗 Fetching weekly links from LinkAce list " ++ env.TARGET_LIST_ID.getD "1" ++ "..."

/-- Embedding of `main` (src/main.py 305–346).  `now_utc` feeds the
fetch's window; `now_local` is the naive `datetime.now()` the writer
uses; `resp` is the LinkAce call's outcome; `o` the completion
service's behaviour; `editorInput` the reviewer's line.  (`int()` of
`TARGET_LIST_ID` is not modelled — the list id only routes the request
and appears in the first progress line.) -/
def mainWorkflow (env : Env) (now_utc : Int) (now_local : PyDatetime)
    (resp : HttpResult) (o : Oracle) (editorInput : String) (fs : FileSys) : MainRun :=
  let p0 := fetchNotice env
  match get_weekly_links now_utc resp with
  | .error e => ⟨[p0], [], .errored e⟩
  | .ok links =>
    if links.length = 0 then
      ⟨[p0, "❌ No links found for this week"], [], .noLinks⟩
    else
      let p1 := "✅ Found " ++ toString links.length ++ " links from this week"
      let p2 := "🤖 Structuring content with AI..."
      match structure_links o links with
      | .error e => ⟨[p0, p1, p2], [], .errored e⟩
      | .ok (structured_content, calls1) =>
        if structured_content = "" then
          ⟨[p0, p1, p2, "❌ Failed to generate structured content"], calls1, .noContent⟩
        else
          let p3 := "✏️ Starting editor review..."
          let feedback := get_editor_feedback editorInput
          let p4 := "✨ Polishing content..."
          let (final_content, calls2) := polish_content o structured_content feedback
          let p5 := "📝 Generating Hugo markdown file..."
          let (output_file, fs2) := save_content env now_local fs final_content links.length
          ⟨[p0, p1, p2, p3, p4, p5,
            "🎉 Complete! Hugo content ready at: " ++ output_file,
            "💡 Run 'hugo server' in your Hugo directory to preview"],
           calls1 ++ calls2, .saved output_file fs2 final_content links.length⟩

/-- The digest text a run handed to `save_content`, when it wrote a
file at all. -/
def MainOutcome.savedDigest : MainOutcome → Option String
  | .saved _ _ c _ => some c
  | _ => none

/-! ## Concrete service data used by witnesses and counterexamples -/

/-- A well-formed LinkAce record created 2025-10-09T10:00:00Z. -/
def sampleBody : Json :=
  Json.obj [("data", Json.arr [Json.obj
    [("id", Json.num 1),
     ("url", Json.str "https://example.org/x"),
     ("title", Json.str "X"),
     ("created_at", Json.str "2025-10-09T10:00:00Z"),
     ("tags", Json.arr [Json.obj [("name", Json.str "news")]])]])]

/-- The `Link` the fetch builds from `sampleBody`. -/
def sampleLink : Link :=
  { id := Json.num 1, url := Json.str "https://example.org/x",
    title := Json.str "X", description := Json.str "",
    created_at := "2025-10-09T10:00:00Z", tags := [Json.str "news"] }

/-- 2025-10-10T18:00:00Z as microseconds since the epoch: a fetch time
for which `sampleBody`'s record is inside the 7-day window. -/
def sampleNowUtc : Int := 1760119200000000

/-- A LinkAce record stamped `2025-10-03T22:00:00+05:00`: the instant
that offset denotes (2025-10-03T17:00:00Z) is *before*
`sampleNowUtc - 7 days` (2025-10-03T18:00:00Z), but its wall-clock
fields read as UTC are after the bound. -/
def offsetBody : Json :=
  Json.obj [("data", Json.arr [Json.obj
    [("id", Json.num 7),
     ("url", Json.str "https://example.org/a"),
     ("title", Json.str "A"),
     ("created_at", Json.str "2025-10-03T22:00:00+05:00"),
     ("tags", Json.arr [Json.obj [("name", Json.str "t1")]])]])]

/-- The `Link` the fetch builds from `offsetBody`. -/
def offsetLink : Link :=
  { id := Json.num 7, url := Json.str "https://example.org/a",
    title := Json.str "A", description := Json.str "",
    created_at := "2025-10-03T22:00:00+05:00", tags := [Json.str "t1"] }

/-- A naive local `datetime.now()` reading 2025-10-10T12:34:56. -/
def sampleNaiveNow : PyDatetime := ⟨1760099696000000, none⟩

/-- A completion service for which the synthesis pass succeeds but the
revision pass fails with an empty output.  The synthesis prompt opens
with "Create" and the revision prompt with "Original content", so the
first fifteen characters tell the two calls apart. -/
def failingPolishOracle : Oracle :=
  fun p _ => if p.data.take 15 = "\n        Create".data then "A draft digest." else ""

/-! ## Helper lemmas -/

/-- A `Link` built by `extractLink fields s` carries `s` as its
`created_at`. -/
theorem extractLink_created_at {fields : List (String × Json)} {s : String} {l : Link}
    (h : extractLink fields s = .ok l) : l.created_at = s := by
  unfold extractLink at h
  repeat' split at h
  all_goals simp_all
  cases h
  rfl

/-- Every link produced by the fetch loop has a parsable `created_at`
whose (UTC-reinterpreted) instant is at least the window bound. -/
theorem processLinkData_mem {b : Int} :
    ∀ {ds : List Json} {ls : List Link}, processLinkData b ds = .ok ls →
      ∀ l ∈ ls, ∃ d, parseCreatedAt l.created_at = some d ∧ b ≤ d.instant := by
  intro ds
  induction ds with
  | nil =>
    intro ls h l hl
    simp only [processLinkData] at h
    cases h
    simp at hl
  | cons j rest ih =>
    intro ls h l hl
    unfold processLinkData at h
    split at h
    case _ fields =>
      split at h
      case _ e he => exact absurd h (by simp)
      case _ v hv =>
        split at h
        case _ s =>
          split at h
          case _ => exact absurd h (by simp)
          case _ d hd =>
            split at h
            case isTrue hle =>
              split at h
              case _ e he2 => exact absurd h (by simp)
              case _ link hlink =>
                split at h
                case _ e he3 => exact absurd h (by simp)
                case _ links hrec =>
                  cases h
                  rcases List.mem_cons.mp hl with heq | hmem
                  · subst heq
                    refine ⟨d, ?_, hle⟩
                    rw [extractLink_created_at hlink]
                    exact hd
                  · exact ih hrec l hmem
            case isFalse => exact ih h l hl
        all_goals exact absurd h (by simp)
    case _ => exact absurd h (by simp)

/-- `call_llm_try` only succeeds with content that is non-empty after
stripping. -/
theorem call_llm_try_ok_strip {r : LlmHttpResult} {c : String}
    (h : call_llm_try r = .ok c) : pyStrip c ≠ "" := by
  unfold call_llm_try at h
  repeat' split at h
  all_goals simp_all

/-! ## Claims -/

/-- C1: every bookmark record returned by `get_weekly_links` has a
creation timestamp that parses (as the code parses it) to an instant
at least `now_utc - 7 days`, and any record parsing to an earlier
instant is excluded from the returned sequence. -/
theorem C1_window_filter (now_utc : Int) (resp : HttpResult) (links : List Link)
    (h : get_weekly_links now_utc resp = .ok links) :
    (∀ l ∈ links, ∃ d, parseCreatedAt l.created_at = some d ∧
        now_utc - 7 * 86400000000 ≤ d.instant) ∧
    (∀ l : Link, ∀ d, parseCreatedAt l.created_at = some d →
        d.instant < now_utc - 7 * 86400000000 → l ∉ links) := by
  have hmain : ∀ l ∈ links, ∃ d, parseCreatedAt l.created_at = some d ∧
      now_utc - 7 * 86400000000 ≤ d.instant := by
    unfold get_weekly_links at h
    split at h
    · cases h; simp
    · split at h
      · cases h; simp
      · split at h
        · cases h; simp
        · split at h
          · split at h
            · exact processLinkData_mem h
            · exact absurd h (by simp)
          · exact absurd h (by simp)
  refine ⟨hmain, ?_⟩
  intro l d hd hlt hin
  obtain ⟨d', hd', hle⟩ := hmain l hin
  rw [hd] at hd'
  cases hd'
  omega

/-- Witness for C1 at a concrete fetch. -/
theorem C1_window_filter_witness :
    ∃ d, parseCreatedAt sampleLink.created_at = some d ∧
      sampleNowUtc - 7 * 86400000000 ≤ d.instant :=
  (C1_window_filter sampleNowUtc (.response 200 (some sampleBody)) [sampleLink] rfl).1
    sampleLink (List.mem_singleton.mpr rfl)

/-- C2 counterexample: a 200 response whose well-formed JSON body holds
a record lacking the expected fields makes `get_weekly_links` raise
`KeyError` (only `requests.RequestException` is caught), instead of
returning an empty sequence. -/
theorem C2_counterexample :
    get_weekly_links 0 (.response 200 (some (Json.obj [("data", Json.arr [Json.obj []])]))) =
      .error (.keyError "created_at") := rfl

/-- C2 (amended): `get_weekly_links` never raises on transport-level
failures — network error, non-2xx status, or a body that is not valid
JSON — and returns the empty sequence in each case; but exceptions
raised while walking a well-formed JSON body propagate. -/
theorem C2_degrade_to_empty (now_utc : Int) (status : Nat) (body : Option Json) :
    get_weekly_links now_utc .networkError = .ok [] ∧
    (400 ≤ status → get_weekly_links now_utc (.response status body) = .ok []) ∧
    get_weekly_links now_utc (.response status none) = .ok [] := by
  refine ⟨rfl, ?_, ?_⟩
  · intro hs
    simp [get_weekly_links, hs]
  · by_cases hs : 400 ≤ status <;> simp [get_weekly_links, hs]

/-- Witness for C2 (amended) at a concrete non-2xx response. -/
theorem C2_degrade_to_empty_witness :
    get_weekly_links 0 (.response 404 (some Json.null)) = .ok [] :=
  (C2_degrade_to_empty 0 404 (some Json.null)).2.1 (by decide)

/-- C3: `call_llm` never raises — for every remote outcome it either
returns `""` or the successfully validated content, which is non-empty
after stripping (so a non-empty return is the only success signal);
and it returns `""` on timeout, network error, non-2xx status, a
zero-`choices` response, and a first choice whose content strips to
empty. -/
theorem C3_call_llm_never_raises (prompt : String) (t : ℚ) (r : LlmHttpResult)
    (status : Nat) (body : Option Json) (content : String) :
    (call_llm prompt t r = "" ∨
      (call_llm_try r = .ok (call_llm prompt t r) ∧ pyStrip (call_llm prompt t r) ≠ "")) ∧
    call_llm prompt t .timeout = "" ∧
    call_llm prompt t .networkError = "" ∧
    (400 ≤ status → call_llm prompt t (.response status body) = "") ∧
    call_llm prompt t (.response status (some (Json.obj [("choices", Json.arr [])]))) = "" ∧
    (pyStrip content = "" →
      call_llm prompt t (.response status (some (Json.obj [("choices",
        Json.arr [Json.obj [("message", Json.obj [("content", Json.str content)])]])]))) = "") := by
  refine ⟨?_, rfl, rfl, ?_, ?_, ?_⟩
  · cases hc : call_llm_try r with
    | error e => left; simp [call_llm, hc]
    | ok c =>
      right
      have hcc : call_llm prompt t r = c := by simp [call_llm, hc]
      rw [hcc]
      exact ⟨rfl, call_llm_try_ok_strip hc⟩
  · intro hs
    simp [call_llm, call_llm_try, hs]
  · by_cases hs : 400 ≤ status <;>
      simp [call_llm, call_llm_try, hs, List.lookup]
  · intro hstrip
    by_cases hs : 400 ≤ status <;>
      simp [call_llm, call_llm_try, hs, List.lookup, hstrip]

/-- Witness for C3 at concrete failing responses. -/
theorem C3_call_llm_never_raises_witness :
    call_llm "p" 0.7 (.response 500 none) = "" ∧
    call_llm "p" 0.7 (.response 200 (some (Json.obj [("choices",
      Json.arr [Json.obj [("message", Json.obj [("content", Json.str "  ")])]])]))) = "" :=
  ⟨(C3_call_llm_never_raises "p" 0.7 .timeout 500 none "  ").2.2.2.1 (by decide),
   (C3_call_llm_never_raises "p" 0.7 .timeout 200 none "  ").2.2.2.2.2 rfl⟩

/-- C4: revising with feedback equal to the approval sentinel returns
the content unchanged and performs zero completion calls. -/
theorem C4_revise_sentinel (o : Oracle) (content : String) :
    polish_content o content "Content approved as-is" = (content, []) := rfl

/-- C7: `save_content`'s path is a deterministic function of the
current date and configuration; a second call on the same day with the
same configuration yields the same path, and its content silently
overwrites the first write. -/
theorem C7_save_deterministic (env : Env) (now : PyDatetime) (fs : FileSys)
    (content1 content2 : String) (n1 n2 : Nat) :
    (save_content env now fs content1 n1).1 = save_path env now ∧
    (save_content env now ((save_content env now fs content1 n1).2) content2 n2).1 =
      (save_content env now fs content1 n1).1 ∧
    List.lookup (save_content env now fs content1 n1).1
        ((save_content env now ((save_content env now fs content1 n1).2) content2 n2).2) =
      some (generate_frontmatter env now (weeklyTitle now)
              ["weekly-digest", "curated-links", "reading-list"] ++ meta_content content2 n2) := by
  refine ⟨rfl, rfl, ?_⟩
  simp [save_content, List.lookup]

/-- C8 counterexample: at a concrete naive `datetime.now()` the
front-matter `date:` field is `2025-10-10T12:34:56` — `%z` of a naive
datetime renders as the empty string, so the date field carries no
UTC-offset component. -/
theorem C8_counterexample :
    strftimeIsoZ sampleNaiveNow = "2025-10-10T12:34:56" ∧
    sampleNaiveNow.tz = none ∧
    generate_frontmatter {} sampleNaiveNow "T" ["a"] =
      "---\ntitle: \"T\"\ndate: 2025-10-10T12:34:56\ndraft: false\ndescription: \"Weekly curated links and insights from my reading list\"\ncategories: [\"Weekly Digest\", \"Curated Links\"]\ntags: [\"a\"]\nauthor: \"Editor\"\n---\n\n" :=
  ⟨rfl, rfl, rfl⟩

/-- C8 (amended): for the naive `datetime.now()` the writer uses, the
header block contains the generated title, the timestamp rendered as
`%Y-%m-%dT%H:%M:%S` with an *empty* offset component, `draft: false`,
the fixed description, the two fixed categories, the fixed three-tag
list, and the configured author (default `Editor`). -/
theorem C8_frontmatter_fields (env : Env) (now : PyDatetime) (title : String)
    (tags : List String) (fs : FileSys) (content : String) (n : Nat)
    (h : now.tz = none) :
    generate_frontmatter env now title tags =
      "---\ntitle: \"" ++ title ++ "\"\ndate: " ++ (strftimeYmd now ++ "T" ++ strftimeHMS now) ++
      "\ndraft: false\ndescription: \"Weekly curated links and insights from my reading list\"\ncategories: [\"Weekly Digest\", \"Curated Links\"]\ntags: " ++
      jsonDumpsStrList tags ++ "\nauthor: \"" ++ env.EDITOR_NAME.getD "Editor" ++ "\"\n---\n\n" ∧
    List.lookup (save_content env now fs content n).1 ((save_content env now fs content n).2) =
      some (generate_frontmatter env now ("Weekly Links Digest - Week of " ++ strftimeBdY now)
              ["weekly-digest", "curated-links", "reading-list"] ++ meta_content content n) := by
  constructor
  · unfold generate_frontmatter strftimeIsoZ
    rw [h]
    simp [strftimePercentZ]
  · simp [save_content, weeklyTitle, List.lookup]

/-- Witness for C8 (amended) at the concrete naive datetime. -/
theorem C8_frontmatter_fields_witness :
    generate_frontmatter {} sampleNaiveNow "T" ["a"] =
      "---\ntitle: \"" ++ "T" ++ "\"\ndate: " ++
        (strftimeYmd sampleNaiveNow ++ "T" ++ strftimeHMS sampleNaiveNow) ++
      "\ndraft: false\ndescription: \"Weekly curated links and insights from my reading list\"\ncategories: [\"Weekly Digest\", \"Curated Links\"]\ntags: " ++
      jsonDumpsStrList ["a"] ++ "\nauthor: \"" ++ (({} : Env)).EDITOR_NAME.getD "Editor" ++ "\"\n---\n\n" :=
  (C8_frontmatter_fields {} sampleNaiveNow "T" ["a"] [] "c" 0 rfl).1

set_option maxRecDepth 4096 in
/-- C5 counterexample: a run whose structured draft is non-empty but
whose revision call fails (returns `""`) still reaches
`save_content` — a file is written whose digest text is empty, and
both completion calls happened. -/
theorem C5_counterexample :
    ((mainWorkflow {} sampleNowUtc sampleNaiveNow (.response 200 (some sampleBody))
        failingPolishOracle "make it shorter" []).outcome).savedDigest = some "" ∧
    (mainWorkflow {} sampleNowUtc sampleNaiveNow (.response 200 (some sampleBody))
        failingPolishOracle "make it shorter" []).llmCalls.length = 2 :=
  ⟨rfl, rfl⟩

/-- C5 (amended): on an empty fetch result `main` prints the failure
notice and stops with no write, and on an empty structured digest it
prints the failure notice and stops with no write; but an empty
*revised* digest (a failed revision pass) is not guarded and does
reach `save_content`. -/
theorem C5_empty_guards (env : Env) (now_utc : Int) (now_local : PyDatetime)
    (resp : HttpResult) (o : Oracle) (editorInput : String) (fs : FileSys) :
    (get_weekly_links now_utc resp = .ok [] →
      mainWorkflow env now_utc now_local resp o editorInput fs =
        ⟨[fetchNotice env, "❌ No links found for this week"], [], .noLinks⟩) ∧
    (∀ links calls, get_weekly_links now_utc resp = .ok links → links ≠ [] →
      structure_links o links = .ok ("", calls) →
      (mainWorkflow env now_utc now_local resp o editorInput fs).outcome = .noContent ∧
      "❌ Failed to generate structured content" ∈
        (mainWorkflow env now_utc now_local resp o editorInput fs).printed) := by
  constructor
  · intro h
    unfold mainWorkflow
    rw [h]
    rfl
  · intro links calls h hne hs
    have hlen : ¬ links.length = 0 := by simpa [List.length_eq_zero] using hne
    unfold mainWorkflow
    rw [h]
    simp [hlen, hs]

/-- Witness for C5 (amended) at a concrete failed fetch. -/
theorem C5_empty_guards_witness :
    mainWorkflow {} 0 ⟨0, none⟩ .networkError (fun _ _ => "x") "" [] =
      ⟨[fetchNotice {}, "❌ No links found for this week"], [], .noLinks⟩ :=
  (C5_empty_guards {} 0 ⟨0, none⟩ .networkError (fun _ _ => "x") "" []).1 rfl

/-- C6 counterexample: a record stamped with a non-UTC offset whose
denoted instant is *before* the 7-day bound is nevertheless returned,
because the code discards the written offset and compares the
wall-clock fields as UTC. -/
theorem C6_counterexample :
    denotedInstant "2025-10-03T22:00:00+05:00" = some 1759510800000000 ∧
    (1759510800000000 : Int) < 1760119200000000 - 7 * 86400000000 ∧
    get_weekly_links 1760119200000000 (.response 200 (some offsetBody)) = .ok [offsetLink] :=
  ⟨rfl, by decide, rfl⟩

/-- C6 (amended): the parser accepts a `Z` suffix (rewritten to
`+00:00`) or an explicit numeric offset, but the
`.replace(tzinfo=timezone.utc)` overwrites whatever offset was parsed:
the value the filter compares is the wall-clock reading reinterpreted
as UTC, independent of the written offset. -/
theorem C6_offset_discarded (s : String) (d : PyDatetime)
    (h : fromisoformat (replaceZ s) = some d) :
    parseCreatedAt s = some ⟨d.wall, some 0⟩ ∧
    (parseCreatedAt s).map PyDatetime.instant = some d.wall := by
  constructor
  · simp [parseCreatedAt, h]
  · simp [parseCreatedAt, h, PyDatetime.instant]

/-- Witness for C6 (amended) at the concrete offset timestamp. -/
theorem C6_offset_discarded_witness :
    parseCreatedAt "2025-10-03T22:00:00+05:00" = some ⟨1759528800000000, some 0⟩ :=
  (C6_offset_discarded "2025-10-03T22:00:00+05:00" ⟨1759528800000000, some 18000⟩ rfl).1

/-- When every element is a JSON string, `strElems` succeeds. -/
theorem strElems_ok : ∀ {ts : List Json}, (∀ t ∈ ts, ∃ s, t = Json.str s) →
    ∃ ss, strElems ts = .ok ss := by
  intro ts
  induction ts with
  | nil => exact fun _ => ⟨[], rfl⟩
  | cons t rest ih =>
    intro h
    obtain ⟨s, rfl⟩ := h t (by simp)
    obtain ⟨ss, hss⟩ := ih (fun u hu => h u (by simp [hu]))
    exact ⟨s :: ss, by simp [strElems, hss]⟩

/-- A link whose tag values are all strings renders to a block. -/
theorem link_block_ok {l : Link} (h : ∀ t ∈ l.tags, ∃ s, t = Json.str s) :
    ∃ b, link_block l = .ok b := by
  obtain ⟨ss, hss⟩ := strElems_ok h
  cases hb : link_block l with
  | ok b => exact ⟨b, rfl⟩
  | error e =>
    unfold link_block pyJoinComma at hb
    rw [hss] at hb
    simp at hb

/-- Blocks of a list of well-tagged links all render. -/
theorem linkBlocks_ok : ∀ {links : List Link},
    (∀ l ∈ links, ∀ t ∈ l.tags, ∃ s, t = Json.str s) →
    ∃ bs, linkBlocks links = .ok bs := by
  intro links
  induction links with
  | nil => exact fun _ => ⟨[], rfl⟩
  | cons l rest ih =>
    intro h
    obtain ⟨b, hb⟩ := link_block_ok (h l (by simp))
    obtain ⟨bs, hbs⟩ := ih (fun u hu => h u (by simp [hu]))
    exact ⟨b :: bs, by simp [linkBlocks, hb, hbs]⟩

/-- The synthesis prompt exists for every well-tagged record list. -/
theorem structure_prompt_ok {links : List Link}
    (h : ∀ l ∈ links, ∀ t ∈ l.tags, ∃ s, t = Json.str s) :
    ∃ p, structure_prompt links = .ok p := by
  obtain ⟨bs, hbs⟩ := linkBlocks_ok h
  cases hp : structure_prompt links with
  | ok p => exact ⟨p, rfl⟩
  | error e =>
    unfold structure_prompt links_text at hp
    rw [hbs] at hp
    simp at hp

/-- C9: `structure_links` performs exactly one completion call for
every record list (tag names being strings, as the data model has
them) — including the empty list, whose prompt announces `0` links;
only `main`'s early return on an empty fetch prevents that call in the
reference flow. -/
theorem C9_compose_always_calls (o : Oracle) (links : List Link)
    (h : ∀ l ∈ links, ∀ t ∈ l.tags, ∃ s, t = Json.str s)
    (env : Env) (now_utc : Int) (now_local : PyDatetime) (resp : HttpResult)
    (editorInput : String) (fs : FileSys) :
    (∃ p, structure_prompt links = .ok p ∧
        structure_links o links = .ok (o p 0.7, [⟨p, 0.7⟩])) ∧
    structure_prompt [] =
      .ok (structurePromptPre ++ "0" ++ structurePromptMid ++ "" ++ structurePromptPost) ∧
    (get_weekly_links now_utc resp = .ok [] →
      (mainWorkflow env now_utc now_local resp o editorInput fs).llmCalls = []) := by
  refine ⟨?_, rfl, ?_⟩
  · obtain ⟨p, hp⟩ := structure_prompt_ok h
    exact ⟨p, hp, by simp [structure_links, hp]⟩
  · intro hempty
    unfold mainWorkflow
    rw [hempty]
    rfl

/-- Witness for C9 at the empty record list. -/
theorem C9_compose_always_calls_witness :
    structure_prompt [] =
      .ok (structurePromptPre ++ "0" ++ structurePromptMid ++ "" ++ structurePromptPost) :=
  (C9_compose_always_calls (fun _ _ => "x") [] (by simp) {} 0 ⟨0, none⟩
    .networkError "" []).2.1

/-- C10: `get_editor_feedback` strips the input line and normalizes an
empty result to the approval sentinel; its result is never the empty
string; and an input that is literally the sentinel is returned as-is,
so the subsequent `polish_content` skips the remote revision exactly
as it does for approval. -/
theorem C10_feedback_normalization (s : String) (o : Oracle) (content : String) :
    (pyStrip s = "" → get_editor_feedback s = "Content approved as-is") ∧
    get_editor_feedback s ≠ "" ∧
    get_editor_feedback "Content approved as-is" = "Content approved as-is" ∧
    polish_content o content (get_editor_feedback "Content approved as-is") =
      (content, []) := by
  refine ⟨?_, ?_, rfl, rfl⟩
  · intro h
    simp [get_editor_feedback, h]
  · by_cases hx : pyStrip s = ""
    · have h1 : get_editor_feedback s = "Content approved as-is" := by
        simp [get_editor_feedback, hx]
      rw [h1]
      decide
    · have h1 : get_editor_feedback s = pyStrip s := by
        simp [get_editor_feedback, hx]
      rw [h1]
      exact hx

/-- Witness for C10 at whitespace-only reviewer input. -/
theorem C10_feedback_normalization_witness :
    get_editor_feedback "   " = "Content approved as-is" :=
  (C10_feedback_normalization "   " (fun _ _ => "") "c").1 rfl

end WeeklyNews
